import Mathlib

/-!
Verification development for the dbt_error_alerting repository.

The definitions below are a shallow embedding of the two source modules:

* `error_parsing_utils/dbt_manifest_graph.py` — the pydantic `Node` and
  `Manifest` models (with their kind filter) and `GraphManifest.build_graph`
  (a networkx `Graph`, which is undirected).
* `error_parsing_utils/dbt_log_parser.py` — `ManifestProcessor`
  (`process_manifest`, `lookup_related_node_for_tests`, `merge_slack_ids`),
  `RunResultsProcessor` (`parse_data`, `process_data`), `JoinDf`
  (`join_dataframes`) and the `DBTLogParser.dbt_log_parser` pipeline.

Pandas dataframes are embedded as lists of records (one structure per stage);
a pandas missing value (NaN / None) is `Option.none`.  Dataframe operations
that raise in Python (`KeyError` on a missing column, `TypeError` from
joining a `None`, `AttributeError` on a missing `depends_on`) are embedded as
`Except.error` with a message naming the Python exception.  The regex
extractions use the exact patterns from the source; note that the capture
group in the source wraps the whole pattern, so the extracted value keeps the
literal label (for example "Data Owner: TEAMX", not "TEAMX").  Python `\s`
and `[A-Z0-9]` are modelled over ASCII, which covers every input considered
here.
-/

/-- Python `s.split(".")` on a list of characters, with an accumulator for the
current segment (reversed).  Empty segments are kept, as in Python. -/
def splitDotAux : List Char → List Char → List String
  | [], acc => [String.mk acc.reverse]
  | c :: cs, acc =>
    if c = '.' then String.mk acc.reverse :: splitDotAux cs []
    else splitDotAux cs (c :: acc)

/-- Python `s.split(".")`: `"a.b" ↦ ["a","b"]`, `"ab" ↦ ["ab"]`, `"" ↦ [""]`. -/
def splitDot (s : String) : List String :=
  splitDotAux s.data []

/-- Python `s.startswith(p)`. -/
def strStartsWith (s p : String) : Bool :=
  p.data.isPrefixOf s.data

/-- Python regex `\s` restricted to ASCII whitespace. -/
def isSpaceChar (c : Char) : Bool :=
  (c == ' ') || (c == '\t') || (c == '\n') || (c == '\r') || (c == '\x0b') || (c == '\x0c')

/-- Python regex character class `[A-Z0-9]`. -/
def isTokenChar (c : Char) : Bool :=
  (('A' ≤ c) && (c ≤ 'Z')) || (('0' ≤ c) && (c ≤ '9'))

/-- Match the regex `lit`
followed by `\s*[A-Z0-9]+` at the start of `cs`, returning the full match.
Greedy matching without backtracking is exact here because the whitespace
class and the token class are disjoint. -/
def matchLitAt (lit : List Char) (cs : List Char) : Option (List Char) :=
  if lit.isPrefixOf cs then
    let rest := cs.drop lit.length
    let ws := rest.takeWhile isSpaceChar
    let afterWs := rest.dropWhile isSpaceChar
    let tok := afterWs.takeWhile isTokenChar
    if tok.isEmpty then none else some (lit ++ ws ++ tok)
  else none

/-- Python `re.search`: try every start position from the left, return the
first (leftmost) match. -/
def reFind (lit : List Char) : List Char → Option (List Char)
  | [] => matchLitAt lit []
  | c :: cs =>
    match matchLitAt lit (c :: cs) with
    | some m => some m
    | none => reFind lit cs

/-- `Series.str.extract` with a single group wrapping the pattern
`lit` `\s*[A-Z0-9]+`: the first match of the whole pattern, or NaN. -/
def extractFirst (lit : String) (s : String) : Option String :=
  (reFind lit.data s.data).map String.mk

/-- Python `str(x)` on a value that is either a string or NaN: `str(nan)` is
the three-letter string "nan". -/
def strOfOpt : Option String → String
  | some s => s
  | none => "nan"

/-- `DEFAULT_SLACK_ID` from `dbt_log_parser.py`. -/
def DEFAULT_SLACK_ID : String := "C0514AZSN9Z"

/-- Default `notification_status` of `RunResultsProcessor`. -/
def notificationStatus : List String := ["fail", "warn", "error"]

/-- The seven members of `DbtResourceType`. -/
def resourceTypes : List String :=
  ["model", "analysis", "test", "operation", "seed", "source", "snapshot"]

/-- The seven members of `DbtMaterializationType`. -/
def materializationTypes : List String :=
  ["table", "view", "incremental", "ephemeral", "seed", "snapshot", "test"]

/-- The kinds kept by the `Manifest` validator. -/
def kindsKept : List String := ["test", "snapshot", "model"]

/-- Raw node config before pydantic validation (`NodeConfig`). -/
structure RawConfig where
  materialized : Option String
deriving DecidableEq

/-- A raw manifest entry before pydantic validation of `Node`: each field may
be absent. -/
structure RawUnit where
  unique_id : Option String
  path : Option String
  resource_type : Option String
  description : Option String
  depends_on : Option (List String)
  config : Option RawConfig
deriving DecidableEq

/-- A validated `Node`: `unique_id`, `path`, `resource_type`, `description`
and `config` are required by the pydantic model, `depends_on` is optional
(`Optional[NodeDeps]`).  The `config` wrapper is flattened to its single
`materialized` field. -/
structure NodeV where
  unique_id : String
  path : String
  resource_type : String
  description : String
  depends_on : Option (List String)
  materialized : Option String
deriving DecidableEq

/-- A validated `Manifest`: the `nodes` and `sources` mappings (as ordered
association lists, as Python dicts preserve insertion order). -/
structure ManifestM where
  nodes : List (String × NodeV)
  sources : List (String × NodeV)
deriving DecidableEq

/-- Pydantic validation of one `Node`: every required field must be present,
`resource_type` must be one of the seven `DbtResourceType` values, and a
present `materialized` must be one of the seven `DbtMaterializationType`
values. -/
def validateNode (u : RawUnit) : Except String NodeV :=
  match u.unique_id, u.path, u.resource_type, u.description, u.config with
  | some uid, some p, some rt, some d, some cfg =>
    if resourceTypes.contains rt then
      match cfg.materialized with
      | some m =>
        if materializationTypes.contains m then
          Except.ok ⟨uid, p, rt, d, u.depends_on, some m⟩
        else Except.error "ValidationError: materialized"
      | none => Except.ok ⟨uid, p, rt, d, u.depends_on, none⟩
    else Except.error "ValidationError: resource_type"
  | _, _, _, _, _ => Except.error "ValidationError: field required"

/-- Validate every entry of a raw mapping, keeping order. -/
def validateAll : List (String × RawUnit) → Except String (List (String × NodeV))
  | [] => Except.ok []
  | (k, u) :: rest =>
    match validateNode u with
    | Except.error e => Except.error e
    | Except.ok v => (validateAll rest).map (fun tail => (k, v) :: tail)

/-- `Manifest(**data)`: validate `nodes` and `sources`, then the
`@validator("nodes", "sources")` filter keeps only resource types in
`("test", "snapshot", "model")`. -/
def mkManifest (units sources : List (String × RawUnit)) : Except String ManifestM :=
  match validateAll units with
  | Except.error e => Except.error e
  | Except.ok ns =>
    match validateAll sources with
    | Except.error e => Except.error e
    | Except.ok ss =>
      Except.ok
        { nodes := ns.filter (fun p => kindsKept.contains p.2.resource_type)
          sources := ss.filter (fun p => kindsKept.contains p.2.resource_type) }

/-- One record of the `m2` list built in `dbt_log_parser` from `m.nodes`. -/
structure MRow where
  node : String
  description : String
  path : String
  unique_id : String
  depends_on : List String
deriving DecidableEq

/-- `m2 = [{node, description, path, unique_id, depends_on: n.depends_on.nodes}
for node, n in m.nodes.items()]`.  A node whose `depends_on` is `None` raises
`AttributeError` on `.nodes`. -/
def buildM2 : List (String × NodeV) → Except String (List MRow)
  | [] => Except.ok []
  | (k, n) :: rest =>
    match n.depends_on with
    | none => Except.error "AttributeError: depends_on is None"
    | some deps =>
      (buildM2 rest).map (fun tail => ⟨k, n.description, n.path, n.unique_id, deps⟩ :: tail)

/-- One row of the dataframe returned by `ManifestProcessor.process_manifest`. -/
structure PRow where
  unique_id : String
  node : String
  model_owner : Option String
  slack_id : Option String
  path : String
  depends_on : Option String
deriving DecidableEq

/-- `ManifestProcessor.process_manifest`: regex-extract `model_owner` and
`slack_id` from `description` (full pattern match, label included), reduce
`depends_on` to its first element (or NaN), and project to the six columns.
An empty input list gives an empty dataframe without columns, so the column
access `df["description"]` raises `KeyError`. -/
def processManifest (rows : List MRow) : Except String (List PRow) :=
  if rows.isEmpty then Except.error "KeyError: description"
  else
    Except.ok (rows.map (fun r =>
      { unique_id := r.unique_id
        node := r.node
        model_owner := extractFirst "Data Owner:" r.description
        slack_id := extractFirst "Slack Channel ID:" r.description
        path := r.path
        depends_on := r.depends_on.head? }))

/-- A `PRow` together with the `slack_id_2` cell written (or not) by
`lookup_related_node_for_tests`.  `slack_id_2 = none` models a cell the loop
never assigned (NaN, or a column that does not exist at all when no row was
assigned). -/
structure LRow where
  unique_id : String
  node : String
  model_owner : Option String
  slack_id : Option String
  path : String
  depends_on : Option String
  slack_id_2 : Option String
deriving DecidableEq

/-- `ManifestProcessor.lookup_related_node_for_tests`: for every row whose
`unique_id` starts with "test", look up the first row whose `unique_id`
equals this row's `depends_on` value and store `str(`its `slack_id)` in
`slack_id_2`; a missing match (`IndexError`) is skipped.  Only `slack_id_2`
is written, so the row-by-row loop is a pure map over the rows. -/
def lookupRelatedNodeForTests (rows : List PRow) : List LRow :=
  rows.map (fun r =>
    { unique_id := r.unique_id
      node := r.node
      model_owner := r.model_owner
      slack_id := r.slack_id
      path := r.path
      depends_on := r.depends_on
      slack_id_2 :=
        if strStartsWith r.unique_id "test" then
          match r.depends_on with
          | none => none
          | some d =>
            match rows.find? (fun r2 => r2.unique_id == d) with
            | some r2 => some (strOfOpt r2.slack_id)
            | none => none
        else none })

/-- One row of the dataframe returned by `merge_slack_ids`: `slack_id` is now
always a plain string. -/
structure FRow where
  unique_id : String
  node : String
  model_owner : Option String
  slack_id : String
  path : String
  depends_on : Option String
deriving DecidableEq

/-- The value of `slack_id` after `combine_first(slack_id_2)` and
`fillna(default_value)`, before the startswith-C mask. -/
def cascadeVal (r : LRow) (default_value : String) : String :=
  ((r.slack_id).orElse (fun _ => r.slack_id_2)).getD default_value

/-- The final row produced by `merge_slack_ids` for one input row: the
cascade value, replaced by `default_value` when it does not start with "C". -/
def mergeRow (default_value : String) (r : LRow) : FRow :=
  { unique_id := r.unique_id
    node := r.node
    model_owner := r.model_owner
    slack_id :=
      let v := cascadeVal r default_value
      if strStartsWith v "C" then v else default_value
    path := r.path
    depends_on := r.depends_on }

/-- `ManifestProcessor.merge_slack_ids`.  The column `slack_id_2` exists only
if `lookup_related_node_for_tests` assigned at least one cell; otherwise
`df2["slack_id_2"]` raises `KeyError`. -/
def mergeSlackIds (rows : List LRow) (default_value : String) : Except String (List FRow) :=
  if rows.any (fun r => r.slack_id_2.isSome) then
    Except.ok (rows.map (mergeRow default_value))
  else Except.error "KeyError: slack_id_2"

/-- The manifest half of the pipeline: `process_manifest`, then
`lookup_related_node_for_tests`, then `merge_slack_ids` with the default
Slack id. -/
def resolveOwnership (nodes : List (String × NodeV)) : Except String (List FRow) :=
  match buildM2 nodes with
  | Except.error e => Except.error e
  | Except.ok m2 =>
    match processManifest m2 with
    | Except.error e => Except.error e
    | Except.ok pr => mergeSlackIds (lookupRelatedNodeForTests pr) DEFAULT_SLACK_ID

/-- One record of `run_results.json` as read by
`RunResultsProcessor.parse_data`; `timing` and `result` (the `failures`
field) are opaque blobs carried through unchanged, embedded as strings. -/
structure RRow where
  node : String
  status : String
  timing : String
  result : String
  message : String
deriving DecidableEq

/-- One row of the dataframe returned by `RunResultsProcessor.process_data`. -/
structure QRow where
  node : String
  status : String
  timing : String
  result : String
  message : String
  process_type : String
  schema_name : String
  object_name : String
  clean_node_name : String
deriving DecidableEq

/-- The split-derived fields of one run-result row, defined when its `node`
has at least three dot-separated segments. -/
def mkQRow (r : RRow) : QRow :=
  let p := splitDot r.node
  { node := r.node
    status := r.status
    timing := r.timing
    result := r.result
    message := r.message
    process_type := p.getD 0 ""
    schema_name := p.getD 1 ""
    object_name := p.getD 2 ""
    clean_node_name := p.getD 0 "" ++ "." ++ p.getD 1 "" ++ "." ++ p.getD 2 "" }

/-- `RunResultsProcessor.process_data`.  `df["node"].str.split(".", expand=True)`
has as many columns as the maximum segment count over the rows, so `df2[1]` or
`df2[2]` raises `KeyError` when every row is short; otherwise a row with
fewer than three segments puts `None` into the derived fields, and
`".".join` over a `None` raises `TypeError`.  Only after the split does the
status filter run. -/
def processData (rows : List RRow) : Except String (List QRow) :=
  if rows.isEmpty then Except.error "KeyError: node"
  else
    let segs := fun (r : RRow) => (splitDot r.node).length
    let maxSegs := (rows.map segs).foldl Nat.max 0
    if maxSegs < 2 then Except.error "KeyError: 1"
    else if maxSegs < 3 then Except.error "KeyError: 2"
    else if rows.any (fun r => segs r < 3) then
      Except.error "TypeError: sequence item is None"
    else
      Except.ok ((rows.map mkQRow).filter (fun q => notificationStatus.contains q.status))

/-- The inner merge underlying `JoinDf.join_dataframes`:
`pd.merge(df1, df2, left_on="node", right_on="unique_id")` pairs every
run-result row with every ownership row carrying the same id, keeping left
row order and, within one left row, right row order. -/
def joinMerged (df1 : List QRow) (df2 : List FRow) : List (QRow × FRow) :=
  (df1.map (fun l => (df2.filter (fun r => r.unique_id == l.node)).map (fun r => (l, r)))).flatten

/-- One row of the final dataframe: the nine columns selected by
`df.iloc[:, [8, 14, 1, 3, 4, 5, 11, 12, 13]]`, in that order. -/
structure JRow where
  clean_node_name : String
  depends_on : Option String
  status : String
  result : String
  message : String
  process_type : String
  model_owner : Option String
  slack_id : String
  path : String
deriving DecidableEq

/-- The positional projection of one merged row to the nine selected
columns. -/
def projectRow (p : QRow × FRow) : JRow :=
  { clean_node_name := p.1.clean_node_name
    depends_on := p.2.depends_on
    status := p.1.status
    result := p.1.result
    message := p.1.message
    process_type := p.1.process_type
    model_owner := p.2.model_owner
    slack_id := p.2.slack_id
    path := p.2.path }

/-- `JoinDf.join_dataframes`: inner merge then positional projection. -/
def joinDataframes (df1 : List QRow) (df2 : List FRow) : List JRow :=
  (joinMerged df1 df2).map projectRow

/-- All (run-result, ownership) pairs whose ids match: the cross product
filtered on `unique_id == node`. -/
def matchingPairs (df1 : List QRow) (df2 : List FRow) : List (QRow × FRow) :=
  (df1.flatMap (fun l => df2.map (fun r => (l, r)))).filter
    (fun p => p.2.unique_id == p.1.node)

/-- The embedding of a networkx `Graph` built by `build_graph`: the node list
(in insertion order, without duplicates) and the list of edge pairs as passed
to `add_edges_from`.  The graph is undirected, so adjacency is the symmetric
closure of the pair list (see `GraphT.hasEdge`). -/
structure GraphT where
  nodes : List String
  edges : List (String × String)
deriving DecidableEq

/-- networkx `Graph.has_edge`: an undirected graph stores each added pair in
both directions. -/
def GraphT.hasEdge (g : GraphT) (a b : String) : Bool :=
  g.edges.any (fun p => (p.1 == a && p.2 == b) || (p.1 == b && p.2 == a))

/-- `GraphManifest.node_list`: unit keys then source keys. -/
def nodeListM (m : ManifestM) : List String :=
  m.nodes.map Prod.fst ++ m.sources.map Prod.fst

/-- `GraphManifest.edge_list`:
`[(k, d) for k, v in self.nodes.items() for d in v.depends_on.nodes]`.
A node whose `depends_on` is `None` raises `AttributeError` on `.nodes`. -/
def edgePairs : List (String × NodeV) → Except String (List (String × String))
  | [] => Except.ok []
  | (k, v) :: rest =>
    match v.depends_on with
    | none => Except.error "AttributeError: depends_on is None"
    | some deps =>
      (edgePairs rest).map (fun tail => (deps.map (fun d => (k, d))) ++ tail)

/-- Add one node to a networkx node list: a repeated id is ignored. -/
def addNodeG (ns : List String) (v : String) : List String :=
  if ns.contains v then ns else ns ++ [v]

/-- Add a list of ids to a networkx node list, in order. -/
def addAllNodes (ns : List String) (vs : List String) : List String :=
  vs.foldl addNodeG ns

/-- `GraphManifest.build_graph`: `add_nodes_from(node_list)` then
`add_edges_from(edge_list)`; `add_edges_from` also inserts any edge endpoint
that is not yet a node. -/
def buildGraph (m : ManifestM) : Except String GraphT :=
  (edgePairs m.nodes).map (fun es =>
    { nodes := addAllNodes (addAllNodes [] (nodeListM m)) (es.flatMap (fun p => [p.1, p.2]))
      edges := es })

/-- The column labels of the dataframe built by
`RunResultsProcessor.process_data`, in order. -/
def runResultCols : List String :=
  ["node", "status", "timing", "result", "message",
   "process_type", "schema_name", "object_name", "clean_node_name"]

/-- The column labels of the dataframe returned by `merge_slack_ids`, in
order. -/
def manifestCols : List String :=
  ["unique_id", "node", "model_owner", "slack_id", "path", "depends_on"]

/-- The pandas merge column layout: left columns then right columns, with the
default suffixes `_x` and `_y` attached to labels occurring on both sides. -/
def suffixCols (left right : List String) : List String :=
  (left.map (fun c => if right.contains c then c ++ "_x" else c)) ++
  (right.map (fun c => if left.contains c then c ++ "_y" else c))

/-- The fifteen column labels of
`pd.merge(df1, df2, left_on="node", right_on="unique_id")`. -/
def mergedCols : List String :=
  suffixCols runResultCols manifestCols

/-- The positional indices selected by `df.iloc[:, [8, 14, 1, 3, 4, 5, 11, 12, 13]]`. -/
def ilocIdxs : List Nat := [8, 14, 1, 3, 4, 5, 11, 12, 13]

/-- The column labels of the final joined dataframe, in output order. -/
def joinOutputCols : List String :=
  ilocIdxs.map (fun i => mergedCols.getD i "")

/-- Modelled from the spec: the nine AlertRow columns of section 3, under the
naming of the code — `unit_id` is the recomposed `clean_node_name`,
`kind_or_label` is the id kind segment `process_type`, `slack_channel` is
`slack_id`, `dependencies` is the first-dependency column `depends_on`, and
`timing` is the run-result `timing` column.  This definition follows the
words of the spec, for comparison with `joinOutputCols` above, which follows
the code. -/
def specAlertCols : List String :=
  ["clean_node_name", "process_type", "model_owner", "slack_id", "path",
   "depends_on", "status", "message", "timing"]

/-- `DBTLogParser.dbt_log_parser` from the validated manifest nodes onward:
resolve ownership from the manifest, process the run results, and join. -/
def dbtLogParser (nodes : List (String × NodeV)) (results : List RRow) :
    Except String (List JRow) :=
  match resolveOwnership nodes with
  | Except.error e => Except.error e
  | Except.ok fr =>
    match processData results with
    | Except.error e => Except.error e
    | Except.ok q => Except.ok (joinDataframes q fr)

/-- `Except.isOk`-style error test, shared by the validation lemmas. -/
def exceptIsErr {ε α : Type} : Except ε α → Bool
  | Except.error _ => true
  | Except.ok _ => false

/-- A raw unit on which pydantic validation of `Node` fails: a missing
`unique_id`, `path`, `resource_type`, `description` or `config`, a
`resource_type` outside the seven `DbtResourceType` values, or a present
`materialized` outside the seven `DbtMaterializationType` values. -/
def isBadRaw (u : RawUnit) : Bool :=
  u.unique_id.isNone || u.path.isNone || u.resource_type.isNone ||
  u.description.isNone || u.config.isNone ||
  (match u.resource_type with
   | some rt => !(resourceTypes.contains rt)
   | none => false) ||
  (match u.config with
   | some c =>
     match c.materialized with
     | some m => !(materializationTypes.contains m)
     | none => false
   | none => false)

/-- The node a successful validation produces, written as a total function of
the raw unit (the defaults are never reached on a unit that validates). -/
def forceV (u : RawUnit) : NodeV :=
  { unique_id := u.unique_id.getD ""
    path := u.path.getD ""
    resource_type := u.resource_type.getD ""
    description := u.description.getD ""
    depends_on := u.depends_on
    materialized := (u.config.getD ⟨none⟩).materialized }

/-- Concrete input for the C1 scenario: the manifest unit of the scenario
plus one test depending on it (the test makes `lookup_related_node_for_tests`
assign at least one `slack_id_2` cell, so that `merge_slack_ids` does not
raise `KeyError` and the scenario row actually reaches the output). -/
def c1nodes : List (String × NodeV) :=
  [("model.sales.orders",
    ⟨"model.sales.orders", "models/orders.sql", "model",
     "Data Owner: TEAMX Slack Channel ID: C123456", some [], none⟩),
   ("test.sales.not_null_orders_id",
    ⟨"test.sales.not_null_orders_id", "tests/not_null_orders_id.sql", "test",
     "", some ["model.sales.orders"], none⟩)]

/-- Concrete run results for the C1 scenario. -/
def c1results : List RRow :=
  [⟨"model.sales.orders", "fail", "[]", "1", "null check failed"⟩]

/-- The row the pipeline actually outputs on the C1 scenario input. -/
def c1row : JRow :=
  ⟨"model.sales.orders", none, "fail", "1", "null check failed", "model",
   some "Data Owner: TEAMX", "C0514AZSN9Z", "models/orders.sql"⟩

/-- Concrete input for C2: a model with its own channel and a test depending
on it with an empty description. -/
def c2nodes : List (String × NodeV) :=
  [("model.sales.orders",
    ⟨"model.sales.orders", "models/orders.sql", "model",
     "Slack Channel ID: C999888", some [], none⟩),
   ("test.sales.t_orders",
    ⟨"test.sales.t_orders", "tests/t_orders.sql", "test",
     "", some ["model.sales.orders"], none⟩)]

/-- The resolver row actually produced for the test unit of `c2nodes`. -/
def c2testRow : FRow :=
  ⟨"test.sales.t_orders", "test.sales.t_orders", none, "C0514AZSN9Z",
   "tests/t_orders.sql", some "model.sales.orders"⟩

/-- The resolver row actually produced for the model unit of `c2nodes`. -/
def c2modelRow : FRow :=
  ⟨"model.sales.orders", "model.sales.orders", none, "C0514AZSN9Z",
   "models/orders.sql", none⟩

/-- Concrete lookup-output row for the C3 witness: a test that inherited the
string "nan" from a channel-less parent. -/
def c3inRow : LRow :=
  ⟨"test.a.t", "test.a.t", none, none, "tests/t.sql", some "model.a.m", some "nan"⟩

/-- Concrete lookup output for the C3 witness. -/
def c3rows : List LRow := [c3inRow]

/-- Concrete run results for the C5 counterexample: the only unit id has two
dot-separated segments. -/
def c5rows : List RRow := [⟨"model.orders", "fail", "[]", "", "boom"⟩]

/-- Concrete run results for the C5 witness: a long id and a short id. -/
def c5wrows : List RRow :=
  [⟨"model.a.b", "fail", "[]", "", "x"⟩, ⟨"model.orders", "warn", "[]", "", "y"⟩]

/-- Concrete processed run results for the C6 witness. -/
def c6df1 : List QRow :=
  [⟨"model.a.one", "fail", "[]", "", "m1", "model", "a", "one", "model.a.one"⟩,
   ⟨"model.a.two", "warn", "[]", "", "m2", "model", "a", "two", "model.a.two"⟩]

/-- Concrete ownership rows for the C6 witness: only the first run result has
a match. -/
def c6df2 : List FRow :=
  [⟨"model.a.one", "model.a.one", none, "C0514AZSN9Z", "models/one.sql", none⟩,
   ⟨"model.a.three", "model.a.three", none, "C0514AZSN9Z", "models/three.sql", none⟩]

/-- Concrete raw unit for the C7 counterexample: `id`, `path`, `kind` and
`description` all present and the kind recognized, but `config` absent. -/
def c7unit : RawUnit :=
  ⟨some "model.a.b", some "models/a.sql", some "model", some "d", some [], none⟩

/-- Concrete raw units for the C7 witness: a seed (dropped by the filter) and
a model (kept). -/
def c7units : List (String × RawUnit) :=
  [("seed.a.b",
    ⟨some "seed.a.b", some "seeds/a.csv", some "seed", some "d", some [], some ⟨some "seed"⟩⟩),
   ("model.a.c",
    ⟨some "model.a.c", some "models/c.sql", some "model", some "d", some [], some ⟨some "view"⟩⟩)]

/-- The manifest actually produced from `c7units`. -/
def c7m : ManifestM :=
  { nodes := [("model.a.c",
      ⟨"model.a.c", "models/c.sql", "model", "d", some [], some "view"⟩)]
    sources := [] }

/-- Concrete input for C8: the manifest holds a single test whose first
dependency is a dangling reference, so no `slack_id_2` cell is ever
assigned. -/
def c8nodes : List (String × NodeV) :=
  [("test.sales.t_dangling",
    ⟨"test.sales.t_dangling", "tests/t_dangling.sql", "test",
     "", some ["model.gone.x"], none⟩)]

/-- Concrete run results for C8. -/
def c8results : List RRow :=
  [⟨"test.sales.t_dangling", "fail", "[]", "", "boom"⟩]

/-- Concrete manifest nodes for the C9 witness. -/
def c9nodes : List (String × NodeV) :=
  [("model.a.b",
    ⟨"model.a.b", "models/b.sql", "model", "Slack Channel ID: C1", some [], none⟩),
   ("test.a.t",
    ⟨"test.a.t", "tests/t.sql", "test", "", some ["model.a.b"], none⟩)]

/-- Concrete run results for the C9 witness. -/
def c9results : List RRow :=
  [⟨"model.a.b", "error", "[]", "", "kaboom"⟩]

/-- Concrete manifest for the C10 counterexample: the unit depends on a
source and on a dangling id. -/
def c10m : ManifestM :=
  { nodes := [("model.a.one",
      ⟨"model.a.one", "models/one.sql", "model", "",
       some ["snapshot.a.s", "model.zz.dangling"], none⟩)]
    sources := [("snapshot.a.s",
      ⟨"snapshot.a.s", "snapshots/s.sql", "snapshot", "", some [], none⟩)] }

/-- The graph actually built from `c10m`. -/
def c10gc : GraphT :=
  { nodes := ["model.a.one", "snapshot.a.s", "model.zz.dangling"]
    edges := [("model.a.one", "snapshot.a.s"), ("model.a.one", "model.zz.dangling")] }

/-- Concrete manifest for the C10 witness: every dependency resolves. -/
def c10wm : ManifestM :=
  { nodes := [("model.a.one",
      ⟨"model.a.one", "models/one.sql", "model", "", some ["model.a.two"], none⟩),
     ("model.a.two",
      ⟨"model.a.two", "models/two.sql", "model", "", some [], none⟩)]
    sources := [] }

/-- The edge pairs actually built from `c10wm`. -/
def c10es : List (String × String) := [("model.a.one", "model.a.two")]

/-- The graph actually built from `c10wm`. -/
def c10g : GraphT :=
  { nodes := ["model.a.one", "model.a.two"]
    edges := [("model.a.one", "model.a.two")] }

/-- Claim C1: the spec scenario expects an AlertRow for `model.sales.orders`
with `model_owner = "TEAMX"`, `slack_channel = "C123456"` and
`status = "fail"`.  The code disagrees with its own stated intent: the regex
capture group wraps the full pattern, so `model_owner` keeps the literal
label ("Data Owner: TEAMX"), and the extracted channel
("Slack Channel ID: C123456") never starts with "C", so the
startswith-C validation in `merge_slack_ids` — whose comment says it only
replaces malformed ids — replaces every description-extracted channel with
the default.  On the scenario input the single output row carries
`model_owner = "Data Owner: TEAMX"` and `slack_id = "C0514AZSN9Z"`. -/
theorem c1_scenario_eval :
    dbtLogParser c1nodes c1results = Except.ok [c1row]
    ∧ c1row.model_owner ≠ some "TEAMX"
    ∧ c1row.slack_id ≠ "C123456"
    ∧ c1row.status = "fail" :=
  ⟨rfl, by decide, by decide, rfl⟩

/-- Claim C2: a test unit with no channel of its own, whose first dependency
resolves to a unit with an extracted channel, is expected to end with that
channel.  In the code the inherited value is the full-pattern extraction
"Slack Channel ID: C999888"; it does not start with "C", so the validation
step replaces it with the default: the test's final channel equals the
default, not the dependency's channel (in any reading of that channel). -/
theorem c2_inheritance_eval :
    resolveOwnership c2nodes = Except.ok [c2modelRow, c2testRow]
    ∧ extractFirst "Slack Channel ID:" "Slack Channel ID: C999888" =
        some "Slack Channel ID: C999888"
    ∧ c2testRow.slack_id = DEFAULT_SLACK_ID
    ∧ c2testRow.slack_id ≠ "Slack Channel ID: C999888"
    ∧ c2testRow.slack_id ≠ "C999888" :=
  ⟨rfl, rfl, rfl, by decide, by decide⟩

/-- Claim C8: on a manifest whose only test has a dangling first dependency,
no `slack_id_2` cell is ever assigned, the column does not exist, and
`merge_slack_ids` raises `KeyError` on `df2["slack_id_2"]` — resolution does
raise instead of producing the default channel. -/
theorem c8_dangling_eval :
    resolveOwnership c8nodes = Except.error "KeyError: slack_id_2"
    ∧ dbtLogParser c8nodes c8results = Except.error "KeyError: slack_id_2" :=
  ⟨rfl, rfl⟩

/-- Claim C4 counterexample: the projected column list of the join is not the
spec's nine AlertRow columns.  The projection keeps the `result` (failures)
column and drops `timing`, and its positional order differs from the order
the claim states (compare `joinOutputCols`, from the code, with
`specAlertCols`, modelled from the spec). -/
theorem c4_columns_counterexample :
    joinOutputCols ≠ specAlertCols
    ∧ joinOutputCols.contains "timing" = false
    ∧ joinOutputCols.contains "result" = true
    ∧ specAlertCols.contains "timing" = true := by
  decide

/-- Claim C4 amended: the join output projects to exactly nine columns —
`clean_node_name`, `depends_on`, `status`, `result` (the failures blob),
`message`, `process_type`, `model_owner`, `slack_id`, `path` — in that fixed
positional order; every output column comes from the merged frame, and no
other column of either input (`timing`, the raw `node` keys, `unique_id`,
`schema_name`, `object_name`) survives. -/
theorem c4_columns_amended :
    joinOutputCols =
      ["clean_node_name", "depends_on", "status", "result", "message",
       "process_type", "model_owner", "slack_id", "path"]
    ∧ joinOutputCols.length = 9
    ∧ joinOutputCols.all (fun c => mergedCols.contains c) = true
    ∧ joinOutputCols.contains "timing" = false
    ∧ joinOutputCols.contains "node_x" = false
    ∧ joinOutputCols.contains "node_y" = false
    ∧ joinOutputCols.contains "unique_id" = false
    ∧ joinOutputCols.contains "schema_name" = false
    ∧ joinOutputCols.contains "object_name" = false := by
  decide

/-- Claim C5 counterexample: a run-results set whose only record has the
two-segment unit id "model.orders" makes `process_data` raise (`df2[2]` is a
missing column), instead of producing a tolerant record. -/
theorem c5_short_id_counterexample :
    processData c5rows = Except.error "KeyError: 2"
    ∧ (splitDot "model.orders").length < 3
    ∧ c5rows.head?.map (fun r => r.status) = some "fail" :=
  ⟨rfl, by decide, rfl⟩

/-- Claim C9: the pipeline is deterministic — it is a pure function of the
manifest nodes and the run results, mirroring the single-threaded Python code
whose only inputs are the two parsed files (dict iteration order is insertion
order, and no randomness, time or interleaving is involved). -/
theorem dbt_log_parser_deterministic (nodes nodes2 : List (String × NodeV))
    (results results2 : List RRow)
    (hn : nodes = nodes2) (hr : results = results2) :
    dbtLogParser nodes results = dbtLogParser nodes2 results2 := by
  subst hn
  subst hr
  rfl

/-- Witness for C9 at a concrete input. -/
theorem dbt_log_parser_deterministic_witness :
    dbtLogParser c9nodes c9results = dbtLogParser c9nodes c9results :=
  dbt_log_parser_deterministic c9nodes c9nodes c9results c9results rfl rfl

/-- Claim C3: in the resolver output every final channel starts with "C", and
whenever the cascade value (self, else inherited, else default) does not
start with "C" the output equals the configured default channel id. -/
theorem merge_slack_ids_channel_format (rows : List LRow) (out : List FRow)
    (hok : mergeSlackIds rows DEFAULT_SLACK_ID = Except.ok out) :
    (∀ f ∈ out, strStartsWith f.slack_id "C" = true)
    ∧ (∀ r ∈ rows,
        strStartsWith (cascadeVal r DEFAULT_SLACK_ID) "C" = false →
          mergeRow DEFAULT_SLACK_ID r ∈ out ∧
          (mergeRow DEFAULT_SLACK_ID r).slack_id = DEFAULT_SLACK_ID) := by
  have hout : out = rows.map (mergeRow DEFAULT_SLACK_ID) := by
    unfold mergeSlackIds at hok
    split at hok
    · exact (Except.ok.injEq _ _).mp hok.symm |>.symm ▸ rfl
    · cases hok
  subst hout
  constructor
  · intro f hf
    rcases List.mem_map.mp hf with ⟨r, _, rfl⟩
    unfold mergeRow
    by_cases h : strStartsWith (cascadeVal r DEFAULT_SLACK_ID) "C" = true
    · simp [h]
    · have h' : strStartsWith (cascadeVal r DEFAULT_SLACK_ID) "C" = false :=
        Bool.eq_false_iff.mpr h
      simp only [h', Bool.false_eq_true, if_false]
      decide
  · intro r hr hC
    refine ⟨List.mem_map.mpr ⟨r, hr, rfl⟩, ?_⟩
    unfold mergeRow
    simp [hC]

/-- Witness for C3 at a concrete lookup output: a test that inherited the
string "nan" from a channel-less parent ends with the default channel, which
starts with "C". -/
theorem merge_slack_ids_channel_format_witness :
    strStartsWith (mergeRow DEFAULT_SLACK_ID c3inRow).slack_id "C" = true
    ∧ (mergeRow DEFAULT_SLACK_ID c3inRow).slack_id = DEFAULT_SLACK_ID :=
  ⟨(merge_slack_ids_channel_format c3rows
      (c3rows.map (mergeRow DEFAULT_SLACK_ID)) rfl).1
      (mergeRow DEFAULT_SLACK_ID c3inRow) (by decide),
   ((merge_slack_ids_channel_format c3rows
      (c3rows.map (mergeRow DEFAULT_SLACK_ID)) rfl).2
      c3inRow (by decide) (by decide)).2⟩

/-- Claim C5 amended: a run-results set containing a record whose unit id has
fewer than three dot-separated segments makes `process_data` raise — a
`KeyError` when no record has three segments, otherwise a `TypeError` from
`".".join` over the `None` cells — rather than producing a record with absent
`schema`/`name` fields. -/
theorem process_data_short_id_errors (rows : List RRow) (r : RRow)
    (hmem : r ∈ rows) (hshort : (splitDot r.node).length < 3) :
    ∃ e, processData rows = Except.error e := by
  have hne : rows.isEmpty = false := by
    cases rows with
    | nil => cases hmem
    | cons a t => rfl
  unfold processData
  simp only [hne, Bool.false_eq_true, if_false]
  split
  · exact ⟨_, rfl⟩
  · split
    · exact ⟨_, rfl⟩
    · split
      · exact ⟨_, rfl⟩
      · rename_i hany
        exact absurd (List.any_eq_true.mpr ⟨r, hmem, decide_eq_true hshort⟩) hany

/-- Witness for the amended C5 at a concrete input holding a long id and a
short id. -/
theorem process_data_short_id_errors_witness :
    ∃ e, processData c5wrows = Except.error e :=
  process_data_short_id_errors c5wrows ⟨"model.orders", "warn", "[]", "", "y"⟩
    (by decide) (by decide)

/-- Unfolding equation for `joinMerged` on a cons cell. -/
theorem joinMerged_cons (l : QRow) (t : List QRow) (df2 : List FRow) :
    joinMerged (l :: t) df2 =
      (df2.filter (fun r => r.unique_id == l.node)).map (fun r => (l, r))
        ++ joinMerged t df2 := by
  simp [joinMerged]

/-- Membership in the merged join: exactly the matching pairs. -/
theorem mem_joinMerged {df1 : List QRow} {df2 : List FRow} {a : QRow} {b : FRow} :
    (a, b) ∈ joinMerged df1 df2 ↔
      a ∈ df1 ∧ b ∈ df2 ∧ b.unique_id = a.node := by
  induction df1 with
  | nil => simp [joinMerged]
  | cons l t ih =>
    rw [joinMerged_cons]
    simp only [List.mem_append, ih, List.mem_map, List.mem_filter, List.mem_cons,
      beq_iff_eq]
    constructor
    · rintro (⟨r, ⟨hr, hid⟩, heq⟩ | ⟨h1, h2, h3⟩)
      · injection heq with hl hb
        subst hl
        subst hb
        exact ⟨Or.inl rfl, hr, hid⟩
      · exact ⟨Or.inr h1, h2, h3⟩
    · rintro ⟨h1 | h1, h2, h3⟩
      · subst h1
        exact Or.inl ⟨b, ⟨h2, h3⟩, rfl⟩
      · exact Or.inr ⟨h1, h2, h3⟩

/-- The merged join is the filtered cross product, as lists. -/
theorem joinMerged_eq_matchingPairs (df1 : List QRow) (df2 : List FRow) :
    joinMerged df1 df2 = matchingPairs df1 df2 := by
  induction df1 with
  | nil => rfl
  | cons l t ih =>
    rw [joinMerged_cons, ih]
    unfold matchingPairs
    rw [List.flatMap_cons, List.filter_append]
    congr 1
    rw [List.filter_map]
    rfl

/-- With pairwise distinct ownership ids, at most one ownership row carries a
given id. -/
theorem filter_key_length_le_one (df2 : List FRow) (k : String)
    (hnd : (df2.map (fun r => r.unique_id)).Nodup) :
    (df2.filter (fun r => r.unique_id == k)).length ≤ 1 := by
  induction df2 with
  | nil => simp
  | cons r t ih =>
    rw [List.map_cons, List.nodup_cons] at hnd
    by_cases h : r.unique_id = k
    · have hnil : t.filter (fun r2 => r2.unique_id == k) = [] := by
        refine List.filter_eq_nil_iff.mpr ?_
        intro a ha hak
        exact hnd.1 (List.mem_map.mpr ⟨a, ha, by rw [beq_iff_eq] at hak; rw [hak, h]⟩)
      have hpos : (r :: t).filter (fun r2 => r2.unique_id == k) =
          r :: t.filter (fun r2 => r2.unique_id == k) :=
        List.filter_cons_of_pos (beq_iff_eq.mpr h)
      rw [hpos, hnil]
      simp
    · have hneg : (r :: t).filter (fun r2 => r2.unique_id == k) =
          t.filter (fun r2 => r2.unique_id == k) :=
        List.filter_cons_of_neg (by simp [h])
      rw [hneg]
      exact ih hnd.2

/-- Ownership rows whose id matches no run-result key can be removed without
changing the join. -/
theorem joinMerged_drop_unmatched (df1 : List QRow) (df2 : List FRow) (k : String)
    (hk : ∀ l ∈ df1, l.node ≠ k) :
    joinMerged df1 (df2.filter (fun r => !(r.unique_id == k))) = joinMerged df1 df2 := by
  induction df1 with
  | nil => rfl
  | cons l t ih =>
    rw [joinMerged_cons, joinMerged_cons]
    have hl : l.node ≠ k := hk l (List.mem_cons_self l t)
    have ht : ∀ x ∈ t, x.node ≠ k := fun x hx => hk x (List.mem_cons_of_mem l hx)
    rw [ih ht]
    congr 1
    rw [List.filter_filter]
    refine congrArg (List.map _) (List.filter_congr ?_)
    intro r _
    by_cases h : r.unique_id = l.node
    · simp [h, hl]
    · simp [h]

/-- The two halves of a filter partition a list. -/
theorem length_filter_partition {α : Type} (p : α → Bool) (l : List α) :
    (l.filter p).length + (l.filter (fun a => !(p a))).length = l.length := by
  induction l with
  | nil => rfl
  | cons a t ih =>
    by_cases h : p a
    · rw [List.filter_cons_of_pos h, List.filter_cons_of_neg (by simp [h])]
      simp only [List.length_cons]
      omega
    · rw [List.filter_cons_of_neg h, List.filter_cons_of_pos (by simp [h])]
      simp only [List.length_cons]
      omega

/-- With distinct ownership ids, each run result matches at most once. -/
theorem joinMerged_length_le_left (df1 : List QRow) (df2 : List FRow)
    (hnd2 : (df2.map (fun r => r.unique_id)).Nodup) :
    (joinMerged df1 df2).length ≤ df1.length := by
  induction df1 with
  | nil => simp [joinMerged]
  | cons l t ih =>
    rw [joinMerged_cons, List.length_append, List.length_map, List.length_cons]
    have h1 := filter_key_length_le_one df2 l.node hnd2
    omega

/-- With distinct run-result ids, each ownership row matches at most once. -/
theorem joinMerged_length_le_right (df1 : List QRow) (df2 : List FRow)
    (hnd1 : (df1.map (fun l => l.node)).Nodup) :
    (joinMerged df1 df2).length ≤ df2.length := by
  induction df1 generalizing df2 with
  | nil => simp [joinMerged]
  | cons l t ih =>
    rw [List.map_cons, List.nodup_cons] at hnd1
    rw [joinMerged_cons, List.length_append, List.length_map]
    have ht : ∀ x ∈ t, x.node ≠ l.node := by
      intro x hx hEq
      exact hnd1.1 (List.mem_map.mpr ⟨x, hx, hEq⟩)
    have hrw := joinMerged_drop_unmatched t df2 l.node ht
    have hle : (joinMerged t df2).length ≤
        (df2.filter (fun r => !(r.unique_id == l.node))).length := by
      rw [← hrw]
      exact ih _ hnd1.2
    have hpart := length_filter_partition (fun r : FRow => r.unique_id == l.node) df2
    omega

/-- Claim C6: inner-join semantics — a run-result id with no ownership match
never appears on the left of an output pair, an ownership id with no
run-result match never appears on the right, the output length equals the
number of matching id pairs in the cross product, and (under the spec's
invariant that ids are unique on both sides) is at most the minimum of the
two input lengths. -/
theorem join_dataframes_inner_join (df1 : List QRow) (df2 : List FRow) :
    (∀ k, (∀ r ∈ df2, r.unique_id ≠ k) →
      ∀ p ∈ joinMerged df1 df2, p.1.node ≠ k)
    ∧ (∀ k, (∀ l ∈ df1, l.node ≠ k) →
      ∀ p ∈ joinMerged df1 df2, p.2.unique_id ≠ k)
    ∧ (joinDataframes df1 df2).length = (matchingPairs df1 df2).length
    ∧ ((df1.map (fun l => l.node)).Nodup → (df2.map (fun r => r.unique_id)).Nodup →
        (joinDataframes df1 df2).length ≤ min df1.length df2.length) := by
  refine ⟨?_, ?_, ?_, ?_⟩
  · rintro k hk ⟨a, b⟩ hp hnode
    rcases mem_joinMerged.mp hp with ⟨_, h2, hid⟩
    exact hk b h2 (by rw [hid]; exact hnode)
  · rintro k hk ⟨a, b⟩ hp hid2
    rcases mem_joinMerged.mp hp with ⟨h1, _, hid⟩
    exact hk a h1 (by rw [← hid]; exact hid2)
  · rw [joinDataframes, List.length_map, joinMerged_eq_matchingPairs]
  · intro hnd1 hnd2
    rw [joinDataframes, List.length_map]
    exact Nat.le_min.mpr
      ⟨joinMerged_length_le_left df1 df2 hnd2, joinMerged_length_le_right df1 df2 hnd1⟩

/-- Witness for C6 at concrete inputs: two run results, two ownership rows,
one matching id. -/
theorem join_dataframes_inner_join_witness :
    (joinDataframes c6df1 c6df2).length = (matchingPairs c6df1 c6df2).length
    ∧ (joinDataframes c6df1 c6df2).length ≤ min c6df1.length c6df2.length
    ∧ (∀ p ∈ joinMerged c6df1 c6df2, p.2.unique_id ≠ "model.a.three") :=
  ⟨(join_dataframes_inner_join c6df1 c6df2).2.2.1,
   (join_dataframes_inner_join c6df1 c6df2).2.2.2 (by decide) (by decide),
   (join_dataframes_inner_join c6df1 c6df2).2.1 "model.a.three" (by decide)⟩

/-- Validation of one node fails exactly on the bad raw units. -/
theorem validateNode_isErr (u : RawUnit) :
    exceptIsErr (validateNode u) = isBadRaw u := by
  obtain ⟨uid, p, rt, d, dep, cfg⟩ := u
  cases uid <;> cases p <;> cases rt <;> cases d <;> cases cfg <;> try rfl
  rename_i uid p rt d cfg
  obtain ⟨mat⟩ := cfg
  by_cases hrt : rt ∈ resourceTypes
  · cases mat with
    | none => simp [validateNode, isBadRaw, exceptIsErr, hrt]
    | some m =>
      by_cases hm : m ∈ materializationTypes
      · simp [validateNode, isBadRaw, exceptIsErr, hrt, hm]
      · simp [validateNode, isBadRaw, exceptIsErr, hrt, hm]
  · cases mat <;> simp [validateNode, isBadRaw, exceptIsErr, hrt]

/-- A successful validation returns the forced node. -/
theorem validateNode_ok (u : RawUnit) (v : NodeV)
    (h : validateNode u = Except.ok v) : v = forceV u := by
  obtain ⟨uid, p, rt, d, dep, cfg⟩ := u
  cases uid <;> cases p <;> cases rt <;> cases d <;> cases cfg <;>
    simp only [validateNode] at h
  all_goals try cases h
  rename_i uid p rt d cfg
  obtain ⟨mat⟩ := cfg
  dsimp only at h
  by_cases hrt : resourceTypes.contains rt = true
  · cases mat with
    | none =>
      rw [if_pos hrt] at h
      cases h
      rfl
    | some m =>
      rw [if_pos hrt] at h
      dsimp only at h
      by_cases hm : materializationTypes.contains m = true
      · rw [if_pos hm] at h
        cases h
        rfl
      · rw [if_neg hm] at h
        cases h
  · rw [if_neg hrt] at h
    cases mat <;> cases h

/-- Validating a mapping fails exactly when it holds a bad raw unit. -/
theorem validateAll_isErr (l : List (String × RawUnit)) :
    exceptIsErr (validateAll l) = l.any (fun p => isBadRaw p.2) := by
  induction l with
  | nil => rfl
  | cons ku rest ih =>
    obtain ⟨k, u⟩ := ku
    rw [List.any_cons]
    cases hu : validateNode u with
    | error e =>
      have hbad : isBadRaw u = true := by rw [← validateNode_isErr, hu]; rfl
      rw [hbad]
      simp [validateAll, hu, exceptIsErr]
    | ok v =>
      have hgood : isBadRaw u = false := by rw [← validateNode_isErr, hu]; rfl
      rw [hgood, Bool.false_or, ← ih]
      cases hrest : validateAll rest with
      | error e => simp [validateAll, hu, hrest, Except.map, exceptIsErr]
      | ok vs => simp [validateAll, hu, hrest, Except.map, exceptIsErr]

/-- A successful validation of a mapping forces every node. -/
theorem validateAll_ok (l : List (String × RawUnit)) (vs : List (String × NodeV))
    (h : validateAll l = Except.ok vs) :
    vs = l.map (fun p => (p.1, forceV p.2)) := by
  induction l generalizing vs with
  | nil =>
    cases h
    rfl
  | cons ku rest ih =>
    obtain ⟨k, u⟩ := ku
    unfold validateAll at h
    cases hu : validateNode u with
    | error e => rw [hu] at h; cases h
    | ok v =>
      rw [hu] at h
      cases hrest : validateAll rest with
      | error e => rw [hrest] at h; cases h
      | ok tail =>
        rw [hrest] at h
        cases h
        rw [List.map_cons, ← ih tail hrest, validateNode_ok u v hu]

/-- Claim C7 amended: constructing the Manifest filters both mappings to
kinds {model, test, snapshot}, silently dropping the other recognized kinds,
and it raises a validation error if and only if some unit (in `units` or
`sources`) lacks one of the required fields `id`, `path`, `kind`,
`description` or `config`, or has a kind outside the seven-member
enumeration, or has a present `materialized` outside its seven-member
enumeration.  (The claim as frozen omits the required `config` field; see the
counterexample.) -/
theorem mk_manifest_filter_and_errors (units sources : List (String × RawUnit)) :
    (exceptIsErr (mkManifest units sources) =
      (units ++ sources).any (fun p => isBadRaw p.2))
    ∧ (∀ m, mkManifest units sources = Except.ok m →
        m.nodes = (units.map (fun p => (p.1, forceV p.2))).filter
            (fun p => kindsKept.contains p.2.resource_type)
        ∧ m.sources = (sources.map (fun p => (p.1, forceV p.2))).filter
            (fun p => kindsKept.contains p.2.resource_type)) := by
  constructor
  · rw [List.any_append, ← validateAll_isErr, ← validateAll_isErr]
    unfold mkManifest
    cases h1 : validateAll units with
    | error e => simp [exceptIsErr]
    | ok ns =>
      cases h2 : validateAll sources with
      | error e => simp [exceptIsErr]
      | ok ss => simp [exceptIsErr]
  · intro m hm
    unfold mkManifest at hm
    cases h1 : validateAll units with
    | error e => rw [h1] at hm; cases hm
    | ok ns =>
      rw [h1] at hm
      cases h2 : validateAll sources with
      | error e => rw [h2] at hm; cases hm
      | ok ss =>
        rw [h2] at hm
        cases hm
        exact ⟨by rw [validateAll_ok units ns h1],
               by rw [validateAll_ok sources ss h2]⟩

/-- Witness for the amended C7 at a concrete input: a seed unit is silently
dropped and a model unit is kept. -/
theorem mk_manifest_filter_and_errors_witness :
    c7m.nodes = (c7units.map (fun p => (p.1, forceV p.2))).filter
        (fun p => kindsKept.contains p.2.resource_type)
    ∧ exceptIsErr (mkManifest c7units []) =
        (c7units ++ []).any (fun p => isBadRaw p.2) :=
  ⟨((mk_manifest_filter_and_errors c7units []).2 c7m (by rfl)).1,
   (mk_manifest_filter_and_errors c7units []).1⟩

/-- Claim C7 counterexample: a unit carrying `id`, `path`, a recognized
`kind` and a `description` — everything the claim lists — but no `config`
still makes Manifest construction raise, because the pydantic `Node` model
also requires `config`; the claim's "if and only if" is therefore false. -/
theorem mk_manifest_config_required_counterexample :
    mkManifest [("model.a.b", c7unit)] [] = Except.error "ValidationError: field required"
    ∧ c7unit.unique_id.isSome = true
    ∧ c7unit.path.isSome = true
    ∧ c7unit.resource_type = some "model"
    ∧ c7unit.description.isSome = true
    ∧ resourceTypes.contains "model" = true :=
  ⟨rfl, rfl, rfl, rfl, rfl, rfl⟩

/-- Adding one id to a networkx node list: membership. -/
theorem mem_addNodeG (ns : List String) (a v : String) :
    v ∈ addNodeG ns a ↔ v ∈ ns ∨ v = a := by
  unfold addNodeG
  by_cases h : ns.contains a
  · rw [if_pos h]
    constructor
    · exact Or.inl
    · rintro (hv | rfl)
      · exact hv
      · simpa using h
  · rw [if_neg h]
    simp

/-- Adding a list of ids to a networkx node list: membership. -/
theorem mem_addAllNodes (ns vs : List String) (v : String) :
    v ∈ addAllNodes ns vs ↔ v ∈ ns ∨ v ∈ vs := by
  induction vs generalizing ns with
  | nil => simp [addAllNodes]
  | cons a t ih =>
    show v ∈ addAllNodes (addNodeG ns a) t ↔ _
    rw [ih, mem_addNodeG]
    simp [or_assoc]

/-- Characterization of the generated edge pairs: one per (unit, dependency)
pair, the unit id first. -/
theorem edgePairs_mem (nodes : List (String × NodeV)) (es : List (String × String))
    (h : edgePairs nodes = Except.ok es) (k d : String) :
    (k, d) ∈ es ↔
      ∃ v, (k, v) ∈ nodes ∧ ∃ deps, v.depends_on = some deps ∧ d ∈ deps := by
  induction nodes generalizing es with
  | nil =>
    cases h
    simp
  | cons kv rest ih =>
    obtain ⟨k0, v0⟩ := kv
    unfold edgePairs at h
    cases hdep : v0.depends_on with
    | none => rw [hdep] at h; cases h
    | some deps0 =>
      rw [hdep] at h
      cases hr : edgePairs rest with
      | error e => rw [hr] at h; cases h
      | ok tail =>
        rw [hr] at h
        cases h
        rw [List.mem_append]
        constructor
        · rintro (hmem | hmem)
          · rcases List.mem_map.mp hmem with ⟨d0, hd0, heq⟩
            injection heq with h1 h2
            subst h1
            subst h2
            exact ⟨v0, List.mem_cons_self _ _, deps0, hdep, hd0⟩
          · rcases (ih tail hr).mp hmem with ⟨v, hv, deps, hdeps, hd⟩
            exact ⟨v, List.mem_cons_of_mem _ hv, deps, hdeps, hd⟩
        · rintro ⟨v, hv, deps, hdeps, hd⟩
          rcases List.mem_cons.mp hv with heq | hv2
          · injection heq with h1 h2
            subst h1
            subst h2
            left
            refine List.mem_map.mpr ⟨d, ?_, rfl⟩
            rw [hdep] at hdeps
            injection hdeps with h3
            rw [h3]
            exact hd
          · exact Or.inr ((ih tail hr).mpr ⟨v, hv2, deps, hdeps, hd⟩)

/-- Undirected adjacency is symmetric. -/
theorem hasEdge_symm (g : GraphT) (a b : String) :
    g.hasEdge a b = g.hasEdge b a := by
  unfold GraphT.hasEdge
  rw [Bool.eq_iff_iff]
  simp only [List.any_eq_true]
  constructor
  · rintro ⟨p, hp, hc⟩
    exact ⟨p, hp, by rw [Bool.or_comm]; exact hc⟩
  · rintro ⟨p, hp, hc⟩
    exact ⟨p, hp, by rw [Bool.or_comm]; exact hc⟩

/-- Claim C10 amended: `build_graph` stores exactly one edge pair per
(unit, declared dependency) — units only, the unit id first — and its node
set is the union of unit and source ids plus any edge endpoint not already
present (exactly the union when every dependency id resolves to a unit or
source).  But the graph is a networkx `Graph`, which is undirected: adjacency
is symmetric, so there are no directed edges and a source that is depended on
has an incident (outgoing) edge — see the counterexample. -/
theorem build_graph_structure (m : ManifestM) (es : List (String × String)) (g : GraphT)
    (he : edgePairs m.nodes = Except.ok es) (hg : buildGraph m = Except.ok g) :
    g.edges = es
    ∧ (∀ p ∈ g.edges, p.1 ∈ m.nodes.map Prod.fst)
    ∧ (∀ k d, ((k, d) ∈ g.edges ↔
        ∃ v, (k, v) ∈ m.nodes ∧ ∃ deps, v.depends_on = some deps ∧ d ∈ deps))
    ∧ (∀ a b, g.hasEdge a b = g.hasEdge b a)
    ∧ (∀ v, v ∈ g.nodes ↔ v ∈ nodeListM m ∨ ∃ p ∈ es, v = p.1 ∨ v = p.2)
    ∧ ((∀ p ∈ es, p.2 ∈ nodeListM m) → ∀ v, (v ∈ g.nodes ↔ v ∈ nodeListM m)) := by
  unfold buildGraph at hg
  rw [he] at hg
  cases hg
  have hmemnodes : ∀ v, v ∈ addAllNodes (addAllNodes [] (nodeListM m))
      (es.flatMap (fun p => [p.1, p.2])) ↔
      v ∈ nodeListM m ∨ ∃ p ∈ es, v = p.1 ∨ v = p.2 := by
    intro v
    rw [mem_addAllNodes, mem_addAllNodes, List.mem_flatMap]
    simp [List.mem_cons]
  refine ⟨rfl, ?_, ?_, hasEdge_symm _, hmemnodes, ?_⟩
  · rintro ⟨k, d⟩ hp
    rcases (edgePairs_mem m.nodes es he k d).mp hp with ⟨v, hv, _⟩
    exact List.mem_map.mpr ⟨(k, v), hv, rfl⟩
  · exact fun k d => edgePairs_mem m.nodes es he k d
  · intro hall v
    rw [hmemnodes v]
    constructor
    · rintro (hv | ⟨p, hp, rfl | rfl⟩)
      · exact hv
      · have h1 : p.1 ∈ m.nodes.map Prod.fst := by
          obtain ⟨a, b⟩ := p
          rcases (edgePairs_mem m.nodes es he a b).mp hp with ⟨v, hv, _⟩
          exact List.mem_map.mpr ⟨(a, v), hv, rfl⟩
        exact List.mem_append_left _ h1
      · exact hall p hp
    · exact Or.inl

/-- Witness for the amended C10 on a fully resolving manifest. -/
theorem build_graph_structure_witness :
    c10g.hasEdge "model.a.one" "model.a.two" =
      c10g.hasEdge "model.a.two" "model.a.one"
    ∧ ("model.a.two" ∈ c10g.nodes ↔ "model.a.two" ∈ nodeListM c10wm) :=
  ⟨(build_graph_structure c10wm c10es c10g rfl rfl).2.2.2.1 "model.a.one" "model.a.two",
   (build_graph_structure c10wm c10es c10g rfl rfl).2.2.2.2.2 (by decide) "model.a.two"⟩

/-- Claim C10 counterexample: on a manifest whose unit depends on a source
and on a dangling id, the built graph has an edge between the source and the
unit in the source-to-unit direction as well (networkx `Graph` is
undirected, so the source has an incident edge although no
(source, dependency) pair was generated), and its node set strictly exceeds
the union of unit and source ids (the dangling dependency id becomes a
node). -/
theorem build_graph_undirected_counterexample :
    buildGraph c10m = Except.ok c10gc
    ∧ c10gc.hasEdge "snapshot.a.s" "model.a.one" = true
    ∧ ("snapshot.a.s" ∈ c10m.sources.map Prod.fst)
    ∧ (("snapshot.a.s", "model.a.one") ∉ c10gc.edges)
    ∧ ("model.zz.dangling" ∈ c10gc.nodes)
    ∧ ("model.zz.dangling" ∉ nodeListM c10m) :=
  ⟨rfl, rfl, by decide, by decide, by decide, by decide⟩
